import Mathlib

/-!
Verification of the MODBUS TCP client / web-dashboard polling engine.

Modelling conventions (shallow embedding of the JavaScript source):
* JavaScript numbers are modelled as exact rationals (`ℚ`); raw register
  values are naturals; register-index integers are `ℤ`.
* `Math.round x` (ties toward +infinity) is modelled as `⌊x + 1/2⌋`;
  `parseFloat(x.toFixed(1))` is modelled as `round1` (round to one decimal,
  ties toward +infinity, which matches `toFixed`'s choice of the larger
  candidate).
* Fallible operations (`throw` / rejected promises) are modelled with
  `Except String`; a poll routine receives its transport read outcome as an
  `Except String` argument.
* JS objects become structures; a field that may be `null`/`undefined` is an
  `Option`.
-/

/-- The exact rational value of the JS literal `0.1`. -/
def tenth : ℚ := 1 / 10

/-- JS `Math.round`: round to nearest, ties toward +infinity. -/
def jsRound (q : ℚ) : ℤ := ⌊q + 1 / 2⌋

/-- JS `parseFloat(x.toFixed(1))`: round to one decimal place. -/
def round1 (q : ℚ) : ℚ := (jsRound (q * 10) : ℚ) / 10

/-- `modbus_client.js` `u16ToInt16`: uint16 reinterpreted as two's-complement
int16 (`val >= 0x8000 ? val - 0x10000 : val`). -/
def u16ToInt16 (val : ℕ) : ℤ :=
  if val ≥ 0x8000 then (val : ℤ) - 0x10000 else (val : ℤ)

/-- `modbus_client.js` `int16ToU16`: `val & 0xffff`; on the int32 range this
is the value modulo 2^16. -/
def int16ToU16 (val : ℤ) : ℕ :=
  (val % 0x10000).toNat

/-- `modbus_client.js` `decodePowerKw`: signed int16 times scale 0.1. -/
def decodePowerKw (regU16 : ℕ) : ℚ :=
  (u16ToInt16 regU16 : ℚ) * tenth

/-- `modbus_client.js` `encodePowerKw`: `raw = Math.round(kw / 0.1)`; throws a
`RangeError` outside `[-32768, 32767]`, else `int16ToU16 raw`. -/
def encodePowerKw (kw : ℚ) : Except String ℕ :=
  let raw := jsRound (kw / tenth)
  if raw < -32768 ∨ raw > 32767 then
    Except.error "RangeError: power out of int16 range after scaling"
  else
    Except.ok (int16ToU16 raw)

/-- `modbus_client.js` `decodeScaled`: unsigned value times scale. -/
def decodeScaled (regU16 : ℕ) (scale : ℚ) : ℚ :=
  (regU16 : ℚ) * scale

-- ### Codec lemmas

lemma div_tenth (q : ℚ) : q / tenth = q * 10 := by
  rw [tenth, div_div_eq_mul_div, div_one]

lemma u16ToInt16_int16ToU16 (r : ℤ) (h1 : -32768 ≤ r) (h2 : r ≤ 32767) :
    u16ToInt16 (int16ToU16 r) = r := by
  unfold u16ToInt16 int16ToU16
  split <;> omega

lemma jsRound_eq (q : ℚ) (z : ℤ) (h1 : (z : ℚ) ≤ q + 1 / 2)
    (h2 : q + 1 / 2 < (z : ℚ) + 1) : jsRound q = z := by
  rw [jsRound]
  exact Int.floor_eq_iff.mpr ⟨h1, h2⟩

lemma jsRound_intCast (r : ℤ) : jsRound (r : ℚ) = r := by
  refine jsRound_eq _ _ ?_ ?_ <;> norm_num

lemma encodePowerKw_ok (kw : ℚ) (h1 : -32768 ≤ jsRound (kw / tenth))
    (h2 : jsRound (kw / tenth) ≤ 32767) :
    encodePowerKw kw = Except.ok (int16ToU16 (jsRound (kw / tenth))) := by
  have hnot : ¬(jsRound (kw / tenth) < -32768 ∨ jsRound (kw / tenth) > 32767) := by
    omega
  simp only [encodePowerKw, if_neg hnot]

lemma encodePowerKw_error (kw : ℚ)
    (h : jsRound (kw / tenth) < -32768 ∨ jsRound (kw / tenth) > 32767) :
    encodePowerKw kw =
      Except.error "RangeError: power out of int16 range after scaling" := by
  simp only [encodePowerKw, if_pos h]

-- Concrete evaluations of the rounded scaled value at the spec's boundary
-- inputs (3276.8, -3276.9, 3276.7, -3276.8, 12.3, 0).

lemma jsRound_32768 : jsRound ((32768 : ℚ) / 10 / tenth) = 32768 := by
  refine jsRound_eq _ _ ?_ ?_ <;> norm_num [tenth]

lemma jsRound_neg32769 : jsRound ((-32769 : ℚ) / 10 / tenth) = -32769 := by
  refine jsRound_eq _ _ ?_ ?_ <;> norm_num [tenth]

lemma jsRound_32767 : jsRound ((32767 : ℚ) / 10 / tenth) = 32767 := by
  refine jsRound_eq _ _ ?_ ?_ <;> norm_num [tenth]

lemma jsRound_neg32768 : jsRound ((-32768 : ℚ) / 10 / tenth) = -32768 := by
  refine jsRound_eq _ _ ?_ ?_ <;> norm_num [tenth]

lemma jsRound_123 : jsRound ((123 : ℚ) / 10 / tenth) = 123 := by
  refine jsRound_eq _ _ ?_ ?_ <;> norm_num [tenth]

lemma jsRound_zero : jsRound ((0 : ℚ) / tenth) = 0 := by
  refine jsRound_eq _ _ ?_ ?_ <;> norm_num [tenth]

/-- C1: codec round-trip. (a) For every `kw` whose scaled rounding lies in
`[-32768, 32767]`, decoding the encoded value yields `kw` rounded to one
decimal place. (b) For every integer tenths value `r` in `[-32768, 32767]`,
encoding `r * 0.1` yields the unsigned 16-bit two's-complement
representation of `r`. -/
theorem codec_roundtrip :
    (∀ kw : ℚ, -32768 ≤ jsRound (kw / tenth) → jsRound (kw / tenth) ≤ 32767 →
      (encodePowerKw kw).map decodePowerKw = Except.ok (round1 kw)) ∧
    (∀ r : ℤ, -32768 ≤ r → r ≤ 32767 →
      encodePowerKw ((r : ℚ) * tenth) = Except.ok (int16ToU16 r)) := by
  constructor
  · intro kw h1 h2
    rw [encodePowerKw_ok kw h1 h2]
    have hdec : decodePowerKw (int16ToU16 (jsRound (kw / tenth))) = round1 kw := by
      rw [decodePowerKw, u16ToInt16_int16ToU16 _ h1 h2, round1, div_tenth, tenth]
      ring
    simp only [Except.map, hdec]
  · intro r h1 h2
    have hcan : (r : ℚ) * tenth / tenth = (r : ℚ) := by
      rw [div_tenth, tenth]
      ring
    have hr : jsRound ((r : ℚ) * tenth / tenth) = r := by
      rw [hcan, jsRound_intCast]
    rw [encodePowerKw_ok _ (by omega) (by omega), hr]

/-- Witness for C1 at the concrete inputs `kw = 12.3` and `r = -5`. -/
theorem codec_roundtrip_witness :
    (encodePowerKw (123 / 10)).map decodePowerKw = Except.ok (round1 (123 / 10)) ∧
    encodePowerKw (((-5 : ℤ) : ℚ) * tenth) = Except.ok (int16ToU16 (-5)) :=
  ⟨codec_roundtrip.1 (123 / 10) (by simp [jsRound_123]) (by simp [jsRound_123]),
   codec_roundtrip.2 (-5) (by simp) (by simp)⟩

/-- C2: encode range rejection. `encodePowerKw` fails exactly when the rounded
scaled value leaves `[-32768, 32767]`; `3276.8` and `-3276.9` fail with the
range error, `3276.7` and `-3276.8` succeed (the latter yielding the
two's-complement `32768`), and an in-range value is returned masked to 16
bits. -/
theorem encode_range_rejection :
    encodePowerKw (32768 / 10) =
      Except.error "RangeError: power out of int16 range after scaling" ∧
    encodePowerKw (-32769 / 10) =
      Except.error "RangeError: power out of int16 range after scaling" ∧
    encodePowerKw (32767 / 10) = Except.ok 32767 ∧
    encodePowerKw (-32768 / 10) = Except.ok 32768 ∧
    (∀ kw : ℚ,
      (∃ e, encodePowerKw kw = Except.error e) ↔
        (jsRound (kw / tenth) < -32768 ∨ jsRound (kw / tenth) > 32767)) ∧
    (∀ kw : ℚ, -32768 ≤ jsRound (kw / tenth) → jsRound (kw / tenth) ≤ 32767 →
      encodePowerKw kw = Except.ok (int16ToU16 (jsRound (kw / tenth)))) := by
  refine ⟨?_, ?_, ?_, ?_, ?_, encodePowerKw_ok⟩
  · exact encodePowerKw_error _ (by rw [jsRound_32768]; right; norm_num)
  · exact encodePowerKw_error _ (by rw [jsRound_neg32769]; left; norm_num)
  · rw [encodePowerKw_ok _ (by rw [jsRound_32767]; norm_num) (by rw [jsRound_32767]),
      jsRound_32767]
    rfl
  · rw [encodePowerKw_ok _ (by rw [jsRound_neg32768]) (by rw [jsRound_neg32768]; norm_num),
      jsRound_neg32768]
    rfl
  · intro kw
    constructor
    · intro ⟨e, he⟩
      by_contra hcon
      rw [encodePowerKw_ok kw (by omega) (by omega)] at he
      exact Except.noConfusion he
    · intro h
      exact ⟨_, encodePowerKw_error kw h⟩

/-- Witness for C2's universally quantified parts at `kw = 0`. -/
theorem encode_range_rejection_witness :
    ¬(∃ e, encodePowerKw 0 = Except.error e) ∧
    encodePowerKw 0 = Except.ok (int16ToU16 (jsRound (0 / tenth))) := by
  constructor
  · intro h
    have := (encode_range_rejection.2.2.2.2.1 0).mp h
    rw [jsRound_zero] at this
    omega
  · exact encode_range_rejection.2.2.2.2.2 0 (by rw [jsRound_zero]; norm_num)
      (by rw [jsRound_zero]; norm_num)

/-!
### Poller data model (`poller.js`)

Device snapshot slots, per-slot poll routines, and the full cycle
(`pollAll` with `Promise.allSettled`). Each routine receives its transport
outcome as an `Except String` value (`.ok` = the resolved read, `.error` =
the caught rejection's message) and the ISO timestamp the routine would take
on success.
-/

/-- Per-device Comm Status record. -/
structure Comm where
  ok : Bool
  last_ok_ts : Option String
  last_error : Option String
deriving DecidableEq, Repr

/-- Register metadata attached to each decoded value. -/
structure Meta where
  reg : String
  scale : ℚ
  unit : String
  fc : String
deriving DecidableEq, Repr

/-- `poller.js` `defaultComm`. -/
def defaultComm (msg : String := "not polled yet") : Comm :=
  { ok := false, last_ok_ts := none, last_error := some msg }

/-- JS `x || null` applied to an optional string (an empty string is falsy). -/
def orNull (s : Option String) : Option String :=
  match s with
  | some str => if str = "" then none else some str
  | none => none

/-- PMS device snapshot slot. -/
structure PmsSlot where
  unit_id : ℕ
  demand_control_power_kw : Option ℚ
  total_active_power_kw : Option ℚ
  soc_avg_pct : Option ℚ
  soh_avg_pct : Option ℚ
  capacity_total_kwh : Option ℚ
  demand_control_power_raw : Option ℕ
  total_active_power_raw : Option ℕ
  soc_avg_raw : Option ℕ
  soh_avg_raw : Option ℕ
  capacity_total_raw : Option ℕ
  demand_control_power_meta : Meta
  total_active_power_meta : Meta
  soc_avg_meta : Meta
  soh_avg_meta : Meta
  capacity_total_meta : Meta
  comm : Comm
deriving DecidableEq, Repr

/-- PCS device snapshot slot. -/
structure PcsSlot where
  unit_id : ℕ
  port : ℕ
  active_power_kw : Option ℚ
  active_power_raw : Option ℕ
  active_power_meta : Meta
  comm : Comm
deriving DecidableEq, Repr

/-- BMS device snapshot slot. -/
structure BmsSlot where
  unit_id : ℕ
  port : ℕ
  soc_pct : Option ℚ
  soh_pct : Option ℚ
  capacity_kwh : Option ℚ
  soc_raw : Option ℕ
  soh_raw : Option ℕ
  capacity_raw : Option ℕ
  soc_meta : Meta
  soh_meta : Meta
  capacity_meta : Meta
  comm : Comm
deriving DecidableEq, Repr

/-- Multimeter (bridge) snapshot slot. -/
structure MmSlot where
  unit_id : ℕ
  active_power_kw : Option ℚ
  active_power_raw : Option ℕ
  active_power_meta : Meta
  comm : Comm
deriving DecidableEq, Repr

/-- JSON body returned by the RTU bridge: `{active_power_kw, raw, comm}`. -/
structure MmData where
  active_power_kw : Option ℚ
  raw : Option ℕ
  comm : Option Comm
deriving DecidableEq, Repr

/-- The `devices` map of the poller snapshot. -/
structure Devices where
  pms : PmsSlot
  pcs1 : PcsSlot
  pcs2 : PcsSlot
  bms1 : BmsSlot
  bms2 : BmsSlot
  multimeter : MmSlot
deriving DecidableEq, Repr

/-- The Global Snapshot (`poller.js` module-level `snapshot`). -/
structure Snapshot where
  ts : Option String
  devices : Devices
deriving DecidableEq, Repr

/-- `poller.js` `pollPMS`: on success replaces the whole slot; on failure
mutates only `comm.ok` and `comm.last_error`. The read outcome carries
`(hr0, ir0, ir1, ir2, ir3)`. -/
def pollPMS (read : Except String (ℕ × ℕ × ℕ × ℕ × ℕ)) (now : String)
    (slot : PmsSlot) : PmsSlot :=
  match read with
  | Except.ok (hr0, ir0, ir1, ir2, ir3) =>
    { unit_id := 1
      demand_control_power_kw := some (round1 (decodePowerKw hr0))
      total_active_power_kw := some (round1 (decodePowerKw ir0))
      soc_avg_pct := some (decodeScaled ir1 1)
      soh_avg_pct := some (decodeScaled ir2 1)
      capacity_total_kwh := some (round1 (decodeScaled ir3 tenth))
      demand_control_power_raw := some hr0
      total_active_power_raw := some ir0
      soc_avg_raw := some ir1
      soh_avg_raw := some ir2
      capacity_total_raw := some ir3
      demand_control_power_meta := ⟨"HR0", tenth, "kW", "FC03"⟩
      total_active_power_meta := ⟨"IR0", tenth, "kW", "FC04"⟩
      soc_avg_meta := ⟨"IR1", 1, "%", "FC04"⟩
      soh_avg_meta := ⟨"IR2", 1, "%", "FC04"⟩
      capacity_total_meta := ⟨"IR3", tenth, "kWh", "FC04"⟩
      comm := { ok := true, last_ok_ts := some now, last_error := none } }
  | Except.error e =>
    { slot with comm := { slot.comm with ok := false, last_error := some e } }

/-- `poller.js` `pollPCS`: spread of the previous slot with fresh power data
on success; on failure only `comm` is replaced (keeping `last_ok_ts`). -/
def pollPCS (read : Except String ℕ) (now : String) (prev : PcsSlot) : PcsSlot :=
  match read with
  | Except.ok ir0 =>
    { prev with
      active_power_kw := some (round1 (decodePowerKw ir0))
      active_power_raw := some ir0
      comm := { ok := true, last_ok_ts := some now, last_error := none } }
  | Except.error e =>
    { prev with
      comm := { ok := false, last_ok_ts := orNull prev.comm.last_ok_ts
                last_error := some e } }

/-- `poller.js` `pollBMS`: reads IR0..IR2 `(soc, soh, capacity)`. -/
def pollBMS (read : Except String (ℕ × ℕ × ℕ)) (now : String)
    (prev : BmsSlot) : BmsSlot :=
  match read with
  | Except.ok (ir0, ir1, ir2) =>
    { prev with
      soc_pct := some (decodeScaled ir0 1)
      soh_pct := some (decodeScaled ir1 1)
      capacity_kwh := some (round1 (decodeScaled ir2 tenth))
      soc_raw := some ir0
      soh_raw := some ir1
      capacity_raw := some ir2
      comm := { ok := true, last_ok_ts := some now, last_error := none } }
  | Except.error e =>
    { prev with
      comm := { ok := false, last_ok_ts := orNull prev.comm.last_ok_ts
                last_error := some e } }

/-- `poller.js` `pollMultimeter`: HTTP GET against the bridge; on success the
slot is rebuilt from the bridge JSON, trusting its `comm` when present. -/
def pollMultimeter (fetch : Except String MmData) (prev : MmSlot) : MmSlot :=
  match fetch with
  | Except.ok data =>
    { unit_id := 10
      active_power_kw := data.active_power_kw
      active_power_raw := data.raw
      active_power_meta := ⟨"IR0", tenth, "kW", "FC04 (RTU)"⟩
      comm := data.comm.getD
        { ok := false, last_ok_ts := none, last_error := some "no data from bridge" } }
  | Except.error e =>
    { prev with
      comm := { ok := false, last_ok_ts := orNull prev.comm.last_ok_ts
                last_error := some ("Bridge unreachable: " ++ e) } }

/-- The transport outcomes of one poll cycle, one per routine. -/
structure CycleReads where
  pms : Except String (ℕ × ℕ × ℕ × ℕ × ℕ)
  pcs1 : Except String ℕ
  pcs2 : Except String ℕ
  bms1 : Except String (ℕ × ℕ × ℕ)
  bms2 : Except String (ℕ × ℕ × ℕ)
  multimeter : Except String MmData
deriving Repr

/-- `poller.js` `pollAll`: `Promise.allSettled` over all six routines (every
routine runs regardless of the others' outcomes), then `snapshot.ts` is
stamped. -/
def pollAll (reads : CycleReads) (now : String) (s : Snapshot) : Snapshot :=
  { ts := some now
    devices :=
      { pms := pollPMS reads.pms now s.devices.pms
        pcs1 := pollPCS reads.pcs1 now s.devices.pcs1
        pcs2 := pollPCS reads.pcs2 now s.devices.pcs2
        bms1 := pollBMS reads.bms1 now s.devices.bms1
        bms2 := pollBMS reads.bms2 now s.devices.bms2
        multimeter := pollMultimeter reads.multimeter s.devices.multimeter } }

/-- The module-level initial snapshot of `poller.js` (all values null, Comm
Status `not polled yet`). -/
def initSnapshot : Snapshot :=
  { ts := none
    devices :=
      { pms :=
          { unit_id := 1
            demand_control_power_kw := none, total_active_power_kw := none
            soc_avg_pct := none, soh_avg_pct := none, capacity_total_kwh := none
            demand_control_power_raw := none, total_active_power_raw := none
            soc_avg_raw := none, soh_avg_raw := none, capacity_total_raw := none
            demand_control_power_meta := ⟨"HR0", tenth, "kW", "FC03"⟩
            total_active_power_meta := ⟨"IR0", tenth, "kW", "FC04"⟩
            soc_avg_meta := ⟨"IR1", 1, "%", "FC04"⟩
            soh_avg_meta := ⟨"IR2", 1, "%", "FC04"⟩
            capacity_total_meta := ⟨"IR3", tenth, "kWh", "FC04"⟩
            comm := defaultComm }
        pcs1 :=
          { unit_id := 1, port := 15021
            active_power_kw := none, active_power_raw := none
            active_power_meta := ⟨"IR0", tenth, "kW", "FC04"⟩
            comm := defaultComm }
        pcs2 :=
          { unit_id := 1, port := 15022
            active_power_kw := none, active_power_raw := none
            active_power_meta := ⟨"IR0", tenth, "kW", "FC04"⟩
            comm := defaultComm }
        bms1 :=
          { unit_id := 1, port := 15024
            soc_pct := none, soh_pct := none, capacity_kwh := none
            soc_raw := none, soh_raw := none, capacity_raw := none
            soc_meta := ⟨"IR0", 1, "%", "FC04"⟩
            soh_meta := ⟨"IR1", 1, "%", "FC04"⟩
            capacity_meta := ⟨"IR2", tenth, "kWh", "FC04"⟩
            comm := defaultComm }
        bms2 :=
          { unit_id := 1, port := 15025
            soc_pct := none, soh_pct := none, capacity_kwh := none
            soc_raw := none, soh_raw := none, capacity_raw := none
            soc_meta := ⟨"IR0", 1, "%", "FC04"⟩
            soh_meta := ⟨"IR1", 1, "%", "FC04"⟩
            capacity_meta := ⟨"IR2", tenth, "kWh", "FC04"⟩
            comm := defaultComm }
        multimeter :=
          { unit_id := 10
            active_power_kw := none, active_power_raw := none
            active_power_meta := ⟨"IR0", tenth, "kW", "FC04 (RTU)"⟩
            comm := defaultComm "bridge not polled yet" } } }

/-- C3: atomic slot update. For every device poll routine (PMS, PCS, BMS) and
every prior slot state — in particular any state left by a previous
successful cycle — a failed read leaves every decoded value and every raw
value exactly as it was; only the Comm Status flips (`ok := false`,
`last_error := the error message`). -/
theorem atomic_slot_update :
    (∀ (e now : String) (slot : PmsSlot),
      (pollPMS (Except.error e) now slot).demand_control_power_kw =
          slot.demand_control_power_kw ∧
      (pollPMS (Except.error e) now slot).total_active_power_kw =
          slot.total_active_power_kw ∧
      (pollPMS (Except.error e) now slot).soc_avg_pct = slot.soc_avg_pct ∧
      (pollPMS (Except.error e) now slot).soh_avg_pct = slot.soh_avg_pct ∧
      (pollPMS (Except.error e) now slot).capacity_total_kwh =
          slot.capacity_total_kwh ∧
      (pollPMS (Except.error e) now slot).demand_control_power_raw =
          slot.demand_control_power_raw ∧
      (pollPMS (Except.error e) now slot).total_active_power_raw =
          slot.total_active_power_raw ∧
      (pollPMS (Except.error e) now slot).soc_avg_raw = slot.soc_avg_raw ∧
      (pollPMS (Except.error e) now slot).soh_avg_raw = slot.soh_avg_raw ∧
      (pollPMS (Except.error e) now slot).capacity_total_raw =
          slot.capacity_total_raw ∧
      (pollPMS (Except.error e) now slot).comm.ok = false ∧
      (pollPMS (Except.error e) now slot).comm.last_error = some e ∧
      (pollPMS (Except.error e) now slot).comm.last_ok_ts =
          slot.comm.last_ok_ts) ∧
    (∀ (e now : String) (prev : PcsSlot),
      (pollPCS (Except.error e) now prev).active_power_kw = prev.active_power_kw ∧
      (pollPCS (Except.error e) now prev).active_power_raw = prev.active_power_raw ∧
      (pollPCS (Except.error e) now prev).comm.ok = false ∧
      (pollPCS (Except.error e) now prev).comm.last_error = some e) ∧
    (∀ (e now : String) (prev : BmsSlot),
      (pollBMS (Except.error e) now prev).soc_pct = prev.soc_pct ∧
      (pollBMS (Except.error e) now prev).soh_pct = prev.soh_pct ∧
      (pollBMS (Except.error e) now prev).capacity_kwh = prev.capacity_kwh ∧
      (pollBMS (Except.error e) now prev).soc_raw = prev.soc_raw ∧
      (pollBMS (Except.error e) now prev).soh_raw = prev.soh_raw ∧
      (pollBMS (Except.error e) now prev).capacity_raw = prev.capacity_raw ∧
      (pollBMS (Except.error e) now prev).comm.ok = false ∧
      (pollBMS (Except.error e) now prev).comm.last_error = some e) := by
  refine ⟨?_, ?_, ?_⟩ <;> intro e now slot <;>
    simp [pollPMS, pollPCS, pollBMS]

/-- C5: independent failure isolation. In a cycle where the PMS transport
fails, every other routine still runs against its own read outcome: slots of
the other devices are computed exactly as in any cycle with those outcomes,
successful reads produce fresh data in their slots, and the global timestamp
is stamped regardless of the failure. -/
theorem independent_failure_isolation :
    ∀ (R : CycleReads) (e now : String) (s : Snapshot) (u : ℕ) (v : ℕ × ℕ × ℕ),
      R.pcs1 = Except.ok u → R.bms1 = Except.ok v →
      (pollAll { R with pms := Except.error e } now s).ts = some now ∧
      (pollAll { R with pms := Except.error e } now s).devices.pcs2 =
        pollPCS R.pcs2 now s.devices.pcs2 ∧
      (pollAll { R with pms := Except.error e } now s).devices.bms2 =
        pollBMS R.bms2 now s.devices.bms2 ∧
      (pollAll { R with pms := Except.error e } now s).devices.multimeter =
        pollMultimeter R.multimeter s.devices.multimeter ∧
      (pollAll { R with pms := Except.error e } now s).devices.pcs1 =
        { s.devices.pcs1 with
          active_power_kw := some (round1 (decodePowerKw u))
          active_power_raw := some u
          comm := { ok := true, last_ok_ts := some now, last_error := none } } ∧
      (pollAll { R with pms := Except.error e } now s).devices.bms1 =
        { s.devices.bms1 with
          soc_pct := some (decodeScaled v.1 1)
          soh_pct := some (decodeScaled v.2.1 1)
          capacity_kwh := some (round1 (decodeScaled v.2.2 tenth))
          soc_raw := some v.1
          soh_raw := some v.2.1
          capacity_raw := some v.2.2
          comm := { ok := true, last_ok_ts := some now, last_error := none } } := by
  intro R e now s u v h1 h2
  obtain ⟨a, b, c⟩ := v
  refine ⟨rfl, rfl, rfl, rfl, ?_, ?_⟩
  · show pollPCS R.pcs1 now s.devices.pcs1 = _
    rw [h1]
    rfl
  · show pollBMS R.bms1 now s.devices.bms1 = _
    rw [h2]
    rfl

/-- Witness for C5: a concrete cycle over the initial snapshot in which the
PMS read fails and the PCS1 / BMS1 reads succeed. -/
theorem independent_failure_isolation_witness :
    (pollAll
        { pms := Except.error "ECONNREFUSED"
          pcs1 := Except.ok 100
          pcs2 := Except.ok 200
          bms1 := Except.ok (50, 99, 1000)
          bms2 := Except.error "timeout"
          multimeter := Except.error "socket hang up" }
        "2024-01-01T00:00:01.000Z" initSnapshot).ts =
      some "2024-01-01T00:00:01.000Z" ∧
    (pollAll
        { pms := Except.error "ECONNREFUSED"
          pcs1 := Except.ok 100
          pcs2 := Except.ok 200
          bms1 := Except.ok (50, 99, 1000)
          bms2 := Except.error "timeout"
          multimeter := Except.error "socket hang up" }
        "2024-01-01T00:00:01.000Z" initSnapshot).devices.bms1 =
      { initSnapshot.devices.bms1 with
        soc_pct := some (decodeScaled 50 1)
        soh_pct := some (decodeScaled 99 1)
        capacity_kwh := some (round1 (decodeScaled 1000 tenth))
        soc_raw := some 50
        soh_raw := some 99
        capacity_raw := some 1000
        comm := { ok := true, last_ok_ts := some "2024-01-01T00:00:01.000Z"
                  last_error := none } } := by
  have h := independent_failure_isolation
    { pms := Except.error "ignored"
      pcs1 := Except.ok 100
      pcs2 := Except.ok 200
      bms1 := Except.ok (50, 99, 1000)
      bms2 := Except.error "timeout"
      multimeter := Except.error "socket hang up" }
    "ECONNREFUSED" "2024-01-01T00:00:01.000Z" initSnapshot 100 (50, 99, 1000)
    rfl rfl
  exact ⟨h.1, h.2.2.2.2.2⟩

/-!
### Poll scheduler (`poller.js` `startPolling`)

The loop body is strictly sequential JavaScript:
`while (running) { if (!isPolling) { isPolling = true; await pollAll(...);
isPolling = false } else { log skip } ; await sleep(intervalMs) }`.
Given the duration of each `pollAll` call, the loop is deterministic; we model
one iteration as a state step. An iteration that runs a cycle of duration `d`
occupies `[time, time + d]`, stamps the snapshot timestamp at its completion,
resets the guard (the `finally` clause), and then sleeps `intervalMs`; an
iteration that finds the guard set logs a skip and just sleeps.
-/

/-- State of the polling loop: elapsed time (ms), the `isPolling` guard, the
number of logged skips, the start/completion instants of the cycles run so
far, and the instant at which the Global Snapshot timestamp was last
stamped. -/
structure SchedState where
  time : ℕ
  isPolling : Bool
  skips : ℕ
  starts : List ℕ
  ends : List ℕ
  snapTs : Option ℕ
deriving DecidableEq, Repr

/-- One iteration of the `startPolling` loop with a cycle duration `d`. -/
def schedIter (I : ℕ) (s : SchedState) (d : ℕ) : SchedState :=
  if s.isPolling then
    { s with skips := s.skips + 1, time := s.time + I }
  else
    { s with
      starts := s.starts ++ [s.time]
      ends := s.ends ++ [s.time + d]
      snapTs := some (s.time + d)
      isPolling := false
      time := s.time + d + I }

/-- Run the loop for the given list of cycle durations. -/
def schedRun (I : ℕ) (ds : List ℕ) (s : SchedState) : SchedState :=
  ds.foldl (schedIter I) s

/-- Loop state at `startPolling` entry. -/
def schedInit : SchedState := ⟨0, false, 0, [], [], none⟩

/-- Start instants of the cycles the loop runs: each cycle begins `intervalMs`
after the previous one completes. -/
def cycleStarts (I : ℕ) : ℕ → List ℕ → List ℕ
  | _, [] => []
  | t, d :: ds => t :: cycleStarts I (t + d + I) ds

/-- Completion instants of the cycles the loop runs. -/
def cycleEnds (I : ℕ) : ℕ → List ℕ → List ℕ
  | _, [] => []
  | t, d :: ds => (t + d) :: cycleEnds I (t + d + I) ds

/-- The last element of a list, or a fallback. -/
def lastOr (l : List ℕ) (o : Option ℕ) : Option ℕ :=
  match l.getLast? with
  | some x => some x
  | none => o

lemma lastOr_cons (x : ℕ) (l : List ℕ) (o : Option ℕ) :
    lastOr (x :: l) o = lastOr l (some x) := by
  cases l with
  | nil => rfl
  | cons y ys =>
    rw [lastOr, List.getLast?_cons_cons, lastOr]
    cases h : (y :: ys).getLast? with
    | none => simp at h
    | some z => rfl

lemma lastOr_none (l : List ℕ) : lastOr l none = l.getLast? := by
  rw [lastOr]
  cases h : l.getLast? <;> rfl

lemma schedRun_cons (I d : ℕ) (ds : List ℕ) (s : SchedState)
    (h : s.isPolling = false) :
    schedRun I (d :: ds) s =
      schedRun I ds
        { s with
          starts := s.starts ++ [s.time]
          ends := s.ends ++ [s.time + d]
          snapTs := some (s.time + d)
          isPolling := false
          time := s.time + d + I } := by
  simp only [schedRun, List.foldl, schedIter, h, Bool.false_eq_true, if_false]

lemma schedRun_spec :
    ∀ (ds : List ℕ) (I : ℕ) (s : SchedState), s.isPolling = false →
      (schedRun I ds s).skips = s.skips ∧
      (schedRun I ds s).isPolling = false ∧
      (schedRun I ds s).starts = s.starts ++ cycleStarts I s.time ds ∧
      (schedRun I ds s).ends = s.ends ++ cycleEnds I s.time ds ∧
      (schedRun I ds s).snapTs = lastOr (cycleEnds I s.time ds) s.snapTs := by
  intro ds
  induction ds with
  | nil =>
    intro I s h
    exact ⟨rfl, h, by simp [schedRun, cycleStarts], by simp [schedRun, cycleEnds],
      by simp [schedRun, cycleEnds, lastOr]⟩
  | cons d ds ih =>
    intro I s h
    rw [schedRun_cons I d ds s h]
    obtain ⟨h1, h2, h3, h4, h5⟩ := ih I
      { s with
        starts := s.starts ++ [s.time]
        ends := s.ends ++ [s.time + d]
        snapTs := some (s.time + d)
        isPolling := false
        time := s.time + d + I } rfl
    refine ⟨h1, h2, ?_, ?_, ?_⟩
    · rw [h3]
      simp [cycleStarts]
    · rw [h4]
      simp [cycleEnds]
    · rw [h5, cycleEnds, lastOr_cons]

lemma cycleStarts_succ :
    ∀ (ds : List ℕ) (I t k : ℕ), k + 1 < ds.length →
      (cycleStarts I t ds)[k + 1]? = ((cycleEnds I t ds)[k]?).map (· + I) := by
  intro ds
  induction ds with
  | nil =>
    intro I t k h
    simp at h
  | cons d ds ih =>
    intro I t k h
    cases k with
    | zero =>
      cases ds with
      | nil => simp at h
      | cons d2 ds2 => simp [cycleStarts, cycleEnds]
    | succ k =>
      have hlen : k + 1 < ds.length := by
        simpa using h
      simpa [cycleStarts, cycleEnds] using ih I (t + d + I) k hlen

/-- C4 counterexample: with a 10 ms interval and a first cycle lasting 25 ms,
the loop records no skipped tick and starts the second cycle at t = 35
(= 25 + 10), whereas a zero-length first cycle starts it at t = 10: the slow
cycle postpones the next tick instead of the tick firing on cadence and
being skipped. -/
theorem anti_overlap_counterexample :
    (schedRun 10 [25, 0] schedInit).skips = 0 ∧
    (schedRun 10 [25, 0] schedInit).starts = [0, 35] ∧
    (schedRun 10 [0, 0] schedInit).starts = [0, 10] ∧
    (schedRun 10 [25, 0] schedInit).starts ≠ (schedRun 10 [0, 0] schedInit).starts := by
  decide

/-- C4 (amended): the `startPolling` loop is strictly sequential. The skip
branch of the guard never executes (`skips = 0`); cycle `k+1` starts exactly
`intervalMs` after cycle `k` completes — so cycles never overlap and a slow
cycle postpones every later tick rather than being skipped — and the Global
Snapshot timestamp is stamped only at a cycle's completion instant (it holds
the completion time of the last finished cycle). -/
theorem anti_overlap_sequential_loop :
    ∀ (I : ℕ) (ds : List ℕ),
      (schedRun I ds schedInit).skips = 0 ∧
      (schedRun I ds schedInit).isPolling = false ∧
      (schedRun I ds schedInit).starts = cycleStarts I 0 ds ∧
      (schedRun I ds schedInit).ends = cycleEnds I 0 ds ∧
      (schedRun I ds schedInit).snapTs = (cycleEnds I 0 ds).getLast? ∧
      (∀ k, k + 1 < ds.length →
        (cycleStarts I 0 ds)[k + 1]? = ((cycleEnds I 0 ds)[k]?).map (· + I)) := by
  intro I ds
  obtain ⟨h1, h2, h3, h4, h5⟩ := schedRun_spec ds I schedInit rfl
  refine ⟨h1, h2, by simpa using h3, by simpa using h4, ?_, fun k hk => cycleStarts_succ ds I 0 k hk⟩
  rw [h5]
  exact lastOr_none _

/-- Witness for C4 (amended) at interval 10 and cycle durations `[25, 0]`. -/
theorem anti_overlap_sequential_loop_witness :
    (schedRun 10 [25, 0] schedInit).starts = cycleStarts 10 0 [25, 0] ∧
    (cycleStarts 10 0 [25, 0])[1]? = ((cycleEnds 10 0 [25, 0])[0]?).map (· + 10) :=
  ⟨(anti_overlap_sequential_loop 10 [25, 0]).2.2.1,
   (anti_overlap_sequential_loop 10 [25, 0]).2.2.2.2.2 0 (by decide)⟩


/-!
### Snapshot read isolation (`poller.js` `getSnapshot`)

`getSnapshot` returns `JSON.parse(JSON.stringify(snapshot))`. We model the
JSON document as an inductive type; `JSON.stringify` on the snapshot value
becomes `Snapshot.toJson` (string-level printing and re-parsing of a
well-formed document is the identity on documents, so the composition
`parse ∘ stringify` yields the same document) and reading the parsed
object's named properties back into a snapshot becomes `Snapshot.fromJson`
(property access via `jget`). `JSON.parse` always allocates a fresh object
graph, so the returned copy shares no mutable state with the module-level
snapshot; what remains to verify is that the round-trip is lossless: the
reader receives a structurally equal snapshot.
-/

/-- JSON documents. -/
inductive Json where
  | null
  | bool (b : Bool)
  | num (q : ℚ)
  | str (s : String)
  | arr (elems : List Json)
  | obj (fields : List (String × Json))
deriving Repr

/-- Property lookup in a JSON object's field list. -/
def lookupField : List (String × Json) → String → Option Json
  | [], _ => none
  | (k, v) :: rest, key => if k = key then some v else lookupField rest key

/-- JS property access `obj[key]` on a parsed JSON value. -/
def jget (j : Json) (key : String) : Option Json :=
  match j with
  | Json.obj fields => lookupField fields key
  | _ => none

def optNumJson : Option ℚ → Json
  | some q => Json.num q
  | none => Json.null

def optNatJson : Option ℕ → Json
  | some n => Json.num (n : ℚ)
  | none => Json.null

def optStrJson : Option String → Json
  | some s => Json.str s
  | none => Json.null

def asBool : Json → Option Bool
  | Json.bool b => some b
  | _ => none

def asNum : Json → Option ℚ
  | Json.num q => some q
  | _ => none

def asStr : Json → Option String
  | Json.str s => some s
  | _ => none

def asNat : Json → Option ℕ
  | Json.num q => if q.den = 1 ∧ 0 ≤ q.num then some q.num.toNat else none
  | _ => none

def asOptNum : Json → Option (Option ℚ)
  | Json.null => some none
  | Json.num q => some (some q)
  | _ => none

def asOptNat : Json → Option (Option ℕ)
  | Json.null => some none
  | Json.num q => if q.den = 1 ∧ 0 ≤ q.num then some (some q.num.toNat) else none
  | _ => none

def asOptStr : Json → Option (Option String)
  | Json.null => some none
  | Json.str s => some (some s)
  | _ => none

@[simp] lemma asBool_bool (b : Bool) : asBool (Json.bool b) = some b := rfl

@[simp] lemma asNum_num (q : ℚ) : asNum (Json.num q) = some q := rfl

@[simp] lemma asStr_str (s : String) : asStr (Json.str s) = some s := rfl

@[simp] lemma asNat_natJson (n : ℕ) : asNat (Json.num (n : ℚ)) = some n := by
  simp [asNat]

@[simp] lemma asOptNum_optNumJson (o : Option ℚ) :
    asOptNum (optNumJson o) = some o := by
  cases o <;> rfl

@[simp] lemma asOptNat_optNatJson (o : Option ℕ) :
    asOptNat (optNatJson o) = some o := by
  cases o with
  | none => rfl
  | some n => simp [optNatJson, asOptNat]

@[simp] lemma asOptStr_optStrJson (o : Option String) :
    asOptStr (optStrJson o) = some o := by
  cases o <;> rfl

def Comm.toJson (c : Comm) : Json :=
  Json.obj [("ok", Json.bool c.ok), ("last_ok_ts", optStrJson c.last_ok_ts),
    ("last_error", optStrJson c.last_error)]

def Comm.fromJson (j : Json) : Option Comm := do
  let ok ← jget j "ok" >>= asBool
  let ts ← jget j "last_ok_ts" >>= asOptStr
  let er ← jget j "last_error" >>= asOptStr
  pure ⟨ok, ts, er⟩

@[simp] lemma comm_fromJson_roundtrip (c : Comm) : Comm.fromJson c.toJson = some c := by
  simp [Comm.toJson, Comm.fromJson, jget, lookupField]

def Meta.toJson (m : Meta) : Json :=
  Json.obj [("reg", Json.str m.reg), ("scale", Json.num m.scale),
    ("unit", Json.str m.unit), ("fc", Json.str m.fc)]

def Meta.fromJson (j : Json) : Option Meta := do
  let reg ← jget j "reg" >>= asStr
  let sc ← jget j "scale" >>= asNum
  let un ← jget j "unit" >>= asStr
  let fc ← jget j "fc" >>= asStr
  pure ⟨reg, sc, un, fc⟩

@[simp] lemma meta_fromJson_roundtrip (m : Meta) : Meta.fromJson m.toJson = some m := by
  simp [Meta.toJson, Meta.fromJson, jget, lookupField]

def PmsSlot.toJson (p : PmsSlot) : Json :=
  Json.obj
    [("unit_id", Json.num (p.unit_id : ℚ)),
     ("demand_control_power_kw", optNumJson p.demand_control_power_kw),
     ("total_active_power_kw", optNumJson p.total_active_power_kw),
     ("soc_avg_pct", optNumJson p.soc_avg_pct),
     ("soh_avg_pct", optNumJson p.soh_avg_pct),
     ("capacity_total_kwh", optNumJson p.capacity_total_kwh),
     ("demand_control_power_raw", optNatJson p.demand_control_power_raw),
     ("total_active_power_raw", optNatJson p.total_active_power_raw),
     ("soc_avg_raw", optNatJson p.soc_avg_raw),
     ("soh_avg_raw", optNatJson p.soh_avg_raw),
     ("capacity_total_raw", optNatJson p.capacity_total_raw),
     ("demand_control_power_meta", p.demand_control_power_meta.toJson),
     ("total_active_power_meta", p.total_active_power_meta.toJson),
     ("soc_avg_meta", p.soc_avg_meta.toJson),
     ("soh_avg_meta", p.soh_avg_meta.toJson),
     ("capacity_total_meta", p.capacity_total_meta.toJson),
     ("comm", p.comm.toJson)]

/-- Decoded-value properties of a parsed PMS object (split out to keep each
parser small). -/
def PmsSlot.fromJsonVals (j : Json) :
    Option (ℕ × Option ℚ × Option ℚ × Option ℚ × Option ℚ × Option ℚ) := do
  let uid ← jget j "unit_id" >>= asNat
  let f1 ← jget j "demand_control_power_kw" >>= asOptNum
  let f2 ← jget j "total_active_power_kw" >>= asOptNum
  let f3 ← jget j "soc_avg_pct" >>= asOptNum
  let f4 ← jget j "soh_avg_pct" >>= asOptNum
  let f5 ← jget j "capacity_total_kwh" >>= asOptNum
  pure ⟨uid, f1, f2, f3, f4, f5⟩

/-- Raw-register properties of a parsed PMS object. -/
def PmsSlot.fromJsonRaws (j : Json) :
    Option (Option ℕ × Option ℕ × Option ℕ × Option ℕ × Option ℕ) := do
  let r1 ← jget j "demand_control_power_raw" >>= asOptNat
  let r2 ← jget j "total_active_power_raw" >>= asOptNat
  let r3 ← jget j "soc_avg_raw" >>= asOptNat
  let r4 ← jget j "soh_avg_raw" >>= asOptNat
  let r5 ← jget j "capacity_total_raw" >>= asOptNat
  pure ⟨r1, r2, r3, r4, r5⟩

/-- Metadata properties of a parsed PMS object. -/
def PmsSlot.fromJsonMetas (j : Json) : Option (Meta × Meta × Meta × Meta × Meta) := do
  let m1 ← jget j "demand_control_power_meta" >>= Meta.fromJson
  let m2 ← jget j "total_active_power_meta" >>= Meta.fromJson
  let m3 ← jget j "soc_avg_meta" >>= Meta.fromJson
  let m4 ← jget j "soh_avg_meta" >>= Meta.fromJson
  let m5 ← jget j "capacity_total_meta" >>= Meta.fromJson
  pure ⟨m1, m2, m3, m4, m5⟩

def PmsSlot.fromJson (j : Json) : Option PmsSlot := do
  let v ← PmsSlot.fromJsonVals j
  let r ← PmsSlot.fromJsonRaws j
  let m ← PmsSlot.fromJsonMetas j
  let comm ← jget j "comm" >>= Comm.fromJson
  pure ⟨v.1, v.2.1, v.2.2.1, v.2.2.2.1, v.2.2.2.2.1, v.2.2.2.2.2,
        r.1, r.2.1, r.2.2.1, r.2.2.2.1, r.2.2.2.2,
        m.1, m.2.1, m.2.2.1, m.2.2.2.1, m.2.2.2.2, comm⟩

@[simp] lemma pmsSlot_fromJson_roundtrip (p : PmsSlot) :
    PmsSlot.fromJson p.toJson = some p := by
  simp [PmsSlot.toJson, PmsSlot.fromJson, PmsSlot.fromJsonVals,
    PmsSlot.fromJsonRaws, PmsSlot.fromJsonMetas, jget, lookupField]

def PcsSlot.toJson (c : PcsSlot) : Json :=
  Json.obj
    [("unit_id", Json.num (c.unit_id : ℚ)),
     ("port", Json.num (c.port : ℚ)),
     ("active_power_kw", optNumJson c.active_power_kw),
     ("active_power_raw", optNatJson c.active_power_raw),
     ("active_power_meta", c.active_power_meta.toJson),
     ("comm", c.comm.toJson)]

def PcsSlot.fromJson (j : Json) : Option PcsSlot := do
  let uid ← jget j "unit_id" >>= asNat
  let port ← jget j "port" >>= asNat
  let kw ← jget j "active_power_kw" >>= asOptNum
  let raw ← jget j "active_power_raw" >>= asOptNat
  let meta ← jget j "active_power_meta" >>= Meta.fromJson
  let comm ← jget j "comm" >>= Comm.fromJson
  pure ⟨uid, port, kw, raw, meta, comm⟩

@[simp] lemma pcsSlot_fromJson_roundtrip (c : PcsSlot) :
    PcsSlot.fromJson c.toJson = some c := by
  simp [PcsSlot.toJson, PcsSlot.fromJson, jget, lookupField]

def BmsSlot.toJson (b : BmsSlot) : Json :=
  Json.obj
    [("unit_id", Json.num (b.unit_id : ℚ)),
     ("port", Json.num (b.port : ℚ)),
     ("soc_pct", optNumJson b.soc_pct),
     ("soh_pct", optNumJson b.soh_pct),
     ("capacity_kwh", optNumJson b.capacity_kwh),
     ("soc_raw", optNatJson b.soc_raw),
     ("soh_raw", optNatJson b.soh_raw),
     ("capacity_raw", optNatJson b.capacity_raw),
     ("soc_meta", b.soc_meta.toJson),
     ("soh_meta", b.soh_meta.toJson),
     ("capacity_meta", b.capacity_meta.toJson),
     ("comm", b.comm.toJson)]

/-- Value properties of a parsed BMS object (split out to keep each parser
small). -/
def BmsSlot.fromJsonVals (j : Json) :
    Option (ℕ × ℕ × Option ℚ × Option ℚ × Option ℚ) := do
  let uid ← jget j "unit_id" >>= asNat
  let port ← jget j "port" >>= asNat
  let soc ← jget j "soc_pct" >>= asOptNum
  let soh ← jget j "soh_pct" >>= asOptNum
  let cap ← jget j "capacity_kwh" >>= asOptNum
  pure ⟨uid, port, soc, soh, cap⟩

/-- Raw-register and metadata properties of a parsed BMS object. -/
def BmsSlot.fromJsonRest (j : Json) :
    Option ((Option ℕ × Option ℕ × Option ℕ) × (Meta × Meta × Meta)) := do
  let socr ← jget j "soc_raw" >>= asOptNat
  let sohr ← jget j "soh_raw" >>= asOptNat
  let capr ← jget j "capacity_raw" >>= asOptNat
  let m1 ← jget j "soc_meta" >>= Meta.fromJson
  let m2 ← jget j "soh_meta" >>= Meta.fromJson
  let m3 ← jget j "capacity_meta" >>= Meta.fromJson
  pure ⟨⟨socr, sohr, capr⟩, ⟨m1, m2, m3⟩⟩

def BmsSlot.fromJson (j : Json) : Option BmsSlot := do
  let v ← BmsSlot.fromJsonVals j
  let r ← BmsSlot.fromJsonRest j
  let comm ← jget j "comm" >>= Comm.fromJson
  pure ⟨v.1, v.2.1, v.2.2.1, v.2.2.2.1, v.2.2.2.2,
        r.1.1, r.1.2.1, r.1.2.2, r.2.1, r.2.2.1, r.2.2.2, comm⟩

@[simp] lemma bmsSlot_fromJson_roundtrip (b : BmsSlot) :
    BmsSlot.fromJson b.toJson = some b := by
  simp [BmsSlot.toJson, BmsSlot.fromJson, BmsSlot.fromJsonVals,
    BmsSlot.fromJsonRest, jget, lookupField]

def MmSlot.toJson (m : MmSlot) : Json :=
  Json.obj
    [("unit_id", Json.num (m.unit_id : ℚ)),
     ("active_power_kw", optNumJson m.active_power_kw),
     ("active_power_raw", optNatJson m.active_power_raw),
     ("active_power_meta", m.active_power_meta.toJson),
     ("comm", m.comm.toJson)]

def MmSlot.fromJson (j : Json) : Option MmSlot := do
  let uid ← jget j "unit_id" >>= asNat
  let kw ← jget j "active_power_kw" >>= asOptNum
  let raw ← jget j "active_power_raw" >>= asOptNat
  let meta ← jget j "active_power_meta" >>= Meta.fromJson
  let comm ← jget j "comm" >>= Comm.fromJson
  pure ⟨uid, kw, raw, meta, comm⟩

@[simp] lemma mmSlot_fromJson_roundtrip (m : MmSlot) :
    MmSlot.fromJson m.toJson = some m := by
  simp [MmSlot.toJson, MmSlot.fromJson, jget, lookupField]

def Snapshot.toJson (s : Snapshot) : Json :=
  Json.obj
    [("ts", optStrJson s.ts),
     ("devices", Json.obj
        [("pms", s.devices.pms.toJson),
         ("pcs1", s.devices.pcs1.toJson),
         ("pcs2", s.devices.pcs2.toJson),
         ("bms1", s.devices.bms1.toJson),
         ("bms2", s.devices.bms2.toJson),
         ("multimeter", s.devices.multimeter.toJson)])]

def Snapshot.fromJson (j : Json) : Option Snapshot := do
  let ts ← jget j "ts" >>= asOptStr
  let devJ ← jget j "devices"
  let pms ← jget devJ "pms" >>= PmsSlot.fromJson
  let pcs1 ← jget devJ "pcs1" >>= PcsSlot.fromJson
  let pcs2 ← jget devJ "pcs2" >>= PcsSlot.fromJson
  let bms1 ← jget devJ "bms1" >>= BmsSlot.fromJson
  let bms2 ← jget devJ "bms2" >>= BmsSlot.fromJson
  let mm ← jget devJ "multimeter" >>= MmSlot.fromJson
  pure ⟨ts, ⟨pms, pcs1, pcs2, bms1, bms2, mm⟩⟩

/-- `poller.js` `getSnapshot`: `JSON.parse(JSON.stringify(snapshot))` — the
reader's structural clone of the current Global Snapshot. -/
def getSnapshot (s : Snapshot) : Option Snapshot :=
  Snapshot.fromJson s.toJson

/-- C6: snapshot read isolation. The JSON round-trip `getSnapshot` performs is
lossless on every snapshot value: the reader receives a snapshot
structurally equal to the internal one. Since the copy is rebuilt from the
serialized document (`JSON.parse` allocates a fresh object graph), the
returned value shares no mutable state with the poller's snapshot: later
poll-routine mutations cannot alter the returned value, nor vice versa. -/
theorem snapshot_clone_roundtrip : ∀ s : Snapshot, getSnapshot s = some s := by
  intro s
  simp [getSnapshot, Snapshot.toJson, Snapshot.fromJson, jget, lookupField]

/-!
### Telemetry transform (`transform.js` `buildTelemetryRows`)

The transform is defensive over arbitrary snapshot shapes: the snapshot
argument may be null, `devices` may be absent, each covered device slot may
be absent, its `comm` may be absent, and a metric field may be absent or a
non-finite number. We therefore give the transform its own loose input
types: a JS number that may be non-finite (`JNum`), and option-typed slots.
-/

/-- A JavaScript number as seen by `typeof v === "number"` checks: finite, or
one of the non-finite values. -/
inductive JNum where
  | fin (q : ℚ)
  | nan
  | inf
  | ninf
deriving DecidableEq, Repr

/-- The `raw` payload of a telemetry row: the `{ error: ... }` object. -/
structure ErrPayload where
  error : Option String
deriving DecidableEq, Repr

/-- A telemetry row `{ts, device_id, metric, value, unit, comm_ok, raw}`. -/
structure Row where
  ts : String
  device_id : String
  metric : String
  value : ℚ
  unit : Option String
  comm_ok : Bool
  raw : Option ErrPayload
deriving DecidableEq, Repr

/-- The PMS slot as read by the transform (only the mapped metric fields and
`comm` are accessed). -/
structure TPmsSlot where
  demand_control_power_kw : Option JNum
  total_active_power_kw : Option JNum
  soc_avg_pct : Option JNum
  soh_avg_pct : Option JNum
  capacity_total_kwh : Option JNum
  comm : Option Comm
deriving DecidableEq, Repr

/-- The multimeter slot as read by the transform. -/
structure TMmSlot where
  active_power_kw : Option JNum
  comm : Option Comm
deriving DecidableEq, Repr

/-- The `devices` member of a transform input snapshot. -/
structure TDevices where
  pms : Option TPmsSlot
  multimeter : Option TMmSlot
deriving DecidableEq, Repr

/-- A transform input snapshot (the argument may itself be null). -/
structure TSnap where
  devices : Option TDevices
deriving DecidableEq, Repr

/-- `transform.js` `PMS_METRIC_MAP`: snapshot key → (db metric, unit), in
object-literal insertion order. -/
def PMS_METRIC_MAP : List (String × String × String) :=
  [("demand_control_power_kw", "demand_control_power_kw", "kW"),
   ("total_active_power_kw", "active_power_kw", "kW"),
   ("soc_avg_pct", "soc_pct", "%"),
   ("soh_avg_pct", "soh_pct", "%"),
   ("capacity_total_kwh", "capacity_kwh", "kWh")]

/-- Dynamic access `pms[snapKey]` for the mapped keys. -/
def TPmsSlot.field (p : TPmsSlot) : String → Option JNum
  | "demand_control_power_kw" => p.demand_control_power_kw
  | "total_active_power_kw" => p.total_active_power_kw
  | "soc_avg_pct" => p.soc_avg_pct
  | "soh_avg_pct" => p.soh_avg_pct
  | "capacity_total_kwh" => p.capacity_total_kwh
  | _ => none

/-- `pms.comm ? pms.comm.ok : true` — a missing Comm Status is treated as
ok. -/
def commOkOf : Option Comm → Bool
  | some c => c.ok
  | none => true

/-- `transform.js` `buildTelemetryRows`. -/
def buildTelemetryRows (snap : Option TSnap) (ts : String) : List Row :=
  match snap with
  | none => []
  | some s =>
    match s.devices with
    | none => []
    | some devs =>
      let pmsRows : List Row :=
        match devs.pms with
        | none => []
        | some pms =>
          let commOk := commOkOf pms.comm
          if !commOk then
            [⟨ts, "pms", "comm_error", 0, none, false,
              some ⟨match pms.comm with
                    | some c => c.last_error
                    | none => some "unknown"⟩⟩]
          else
            PMS_METRIC_MAP.foldl
              (fun rows e =>
                match pms.field e.1 with
                | some (JNum.fin q) =>
                  rows ++ [⟨ts, "pms", e.2.1, q, some e.2.2, true, none⟩]
                | _ => rows) []
      let mmRows : List Row :=
        match devs.multimeter with
        | none => []
        | some mm =>
          let commOk := commOkOf mm.comm
          match mm.active_power_kw with
          | some (JNum.fin q) =>
            if commOk then
              [⟨ts, "multimeter", "active_power_kw", q, some "kW", true, none⟩]
            else
              [⟨ts, "multimeter", "comm_error", 0, none, false,
                some ⟨match mm.comm with
                      | some c => c.last_error
                      | none => some "no_data"⟩⟩]
          | _ =>
            [⟨ts, "multimeter", "comm_error", 0, none, false,
              some ⟨match mm.comm with
                    | some c => c.last_error
                    | none => some "no_data"⟩⟩]
      pmsRows ++ mmRows

/-- The record the PMS loop body emits for one mapped field, if any: a record
exactly when the field holds a finite number, nothing otherwise. -/
def pmsEmit (pms : TPmsSlot) (ts : String) (e : String × String × String) :
    Option Row :=
  match pms.field e.1 with
  | some (JNum.fin q) => some ⟨ts, "pms", e.2.1, q, some e.2.2, true, none⟩
  | _ => none

/-- The rows the multimeter branch emits. -/
def mmEmit (mm : TMmSlot) (ts : String) : List Row :=
  match mm.active_power_kw with
  | some (JNum.fin q) =>
    if commOkOf mm.comm then
      [⟨ts, "multimeter", "active_power_kw", q, some "kW", true, none⟩]
    else
      [⟨ts, "multimeter", "comm_error", 0, none, false,
        some ⟨match mm.comm with
              | some c => c.last_error
              | none => some "no_data"⟩⟩]
  | _ =>
    [⟨ts, "multimeter", "comm_error", 0, none, false,
      some ⟨match mm.comm with
            | some c => c.last_error
            | none => some "no_data"⟩⟩]

lemma foldl_emit_filterMap {α β : Type} (f : α → Option β) :
    ∀ (L : List α) (acc : List β),
      L.foldl (fun rs e => rs ++ (f e).toList) acc = acc ++ L.filterMap f := by
  intro L
  induction L with
  | nil => intro acc; simp
  | cons a L ih =>
    intro acc
    cases h : f a <;> simp [List.foldl, h, ih]

/-- Characterization of `buildTelemetryRows` when both covered devices are
present and their Comm Status is ok (shared by several claims). -/
lemma buildRows_ok_char (ts : String) (pms : TPmsSlot) (mm : TMmSlot)
    (h1 : commOkOf pms.comm = true) (h2 : commOkOf mm.comm = true) :
    buildTelemetryRows (some ⟨some ⟨some pms, some mm⟩⟩) ts =
      PMS_METRIC_MAP.filterMap (pmsEmit pms ts) ++ mmEmit mm ts := by
  have hfun :
      (fun (rows : List Row) (e : String × String × String) =>
        match pms.field e.1 with
        | some (JNum.fin q) =>
          rows ++ [⟨ts, "pms", e.2.1, q, some e.2.2, true, none⟩]
        | _ => rows) =
      (fun rows e => rows ++ (pmsEmit pms ts e).toList) := by
    funext rows e
    cases h : pms.field e.1 with
    | none => simp [pmsEmit, h]
    | some jn => cases jn <;> simp [pmsEmit, h]
  simp only [buildTelemetryRows, h1, Bool.not_true, Bool.false_eq_true, if_false,
    mmEmit, h2]
  rw [hfun, foldl_emit_filterMap (pmsEmit pms ts) PMS_METRIC_MAP []]
  simp

/-- C7 counterexample: a multimeter slot whose Comm Status is ok but whose
`active_power_kw` is absent is not silently skipped — the transform emits a
`comm_error` sentinel row for it, contrary to the claim. -/
theorem telemetry_skip_counterexample :
    buildTelemetryRows
        (some ⟨some ⟨none,
          some ⟨none, some ⟨true, some "2024-01-01T00:00:00Z", none⟩⟩⟩⟩)
        "2024-01-01T00:00:10Z" =
      [⟨"2024-01-01T00:00:10Z", "multimeter", "comm_error", 0, none, false,
        some ⟨none⟩⟩] := rfl

/-- C7 (amended): for a comm-ok snapshot, the transform emits, for the PMS,
exactly one record per mapped field holding a finite number (`pmsEmit`
yields a record exactly on finite fields and nothing — no zero, no sentinel
— otherwise), while for the multimeter it emits the metric record only when
the value is finite, and otherwise emits the `comm_error` sentinel even
though Comm Status is ok (`mmEmit`). -/
theorem telemetry_finite_skip_rule (ts : String) (pms : TPmsSlot) (mm : TMmSlot)
    (h1 : commOkOf pms.comm = true) (h2 : commOkOf mm.comm = true) :
    buildTelemetryRows (some ⟨some ⟨some pms, some mm⟩⟩) ts =
      PMS_METRIC_MAP.filterMap (pmsEmit pms ts) ++ mmEmit mm ts :=
  buildRows_ok_char ts pms mm h1 h2

/-- Witness for C7 (amended): a PMS slot with a mix of finite, absent and
non-finite fields, and a comm-ok multimeter slot with an absent value. -/
theorem telemetry_finite_skip_rule_witness :
    buildTelemetryRows
        (some ⟨some
          ⟨some ⟨some (JNum.fin (1205 / 10)), none, some JNum.nan,
             some (JNum.fin 76), some JNum.inf,
             some ⟨true, some "2024-01-01T00:00:00Z", none⟩⟩,
           some ⟨none, some ⟨true, some "2024-01-01T00:00:00Z", none⟩⟩⟩⟩)
        "2024-01-01T00:00:10Z" =
      PMS_METRIC_MAP.filterMap
        (pmsEmit
          ⟨some (JNum.fin (1205 / 10)), none, some JNum.nan,
           some (JNum.fin 76), some JNum.inf,
           some ⟨true, some "2024-01-01T00:00:00Z", none⟩⟩
          "2024-01-01T00:00:10Z") ++
        mmEmit ⟨none, some ⟨true, some "2024-01-01T00:00:00Z", none⟩⟩
          "2024-01-01T00:00:10Z" :=
  telemetry_finite_skip_rule "2024-01-01T00:00:10Z"
    ⟨some (JNum.fin (1205 / 10)), none, some JNum.nan, some (JNum.fin 76),
     some JNum.inf, some ⟨true, some "2024-01-01T00:00:00Z", none⟩⟩
    ⟨none, some ⟨true, some "2024-01-01T00:00:00Z", none⟩⟩ rfl rfl

/-- C9: a slot present without any `comm` field is treated as comm-ok
(`pms.comm ? pms.comm.ok : true` defaults to `true`); a comm-less PMS slot
yields its per-metric records for finite fields, and a comm-less multimeter
slot with a finite value yields the metric record, not the `comm_error`
sentinel. -/
theorem default_comm_ok_on_missing :
    ∀ (ts : String) (pms : TPmsSlot) (mm : TMmSlot) (q : ℚ),
      pms.comm = none → mm.comm = none →
      mm.active_power_kw = some (JNum.fin q) →
      buildTelemetryRows (some ⟨some ⟨some pms, some mm⟩⟩) ts =
        PMS_METRIC_MAP.filterMap (pmsEmit pms ts) ++
          [⟨ts, "multimeter", "active_power_kw", q, some "kW", true, none⟩] := by
  intro ts pms mm q hp hm hv
  have h1 : commOkOf pms.comm = true := by rw [hp]; rfl
  have h2 : commOkOf mm.comm = true := by rw [hm]; rfl
  rw [buildRows_ok_char ts pms mm h1 h2]
  simp [mmEmit, hv, h2]

/-- Witness for C9: concrete comm-less PMS and multimeter slots with finite
values. -/
theorem default_comm_ok_on_missing_witness :
    buildTelemetryRows
        (some ⟨some
          ⟨some ⟨some (JNum.fin 1), some (JNum.fin 2), some (JNum.fin 3),
             some (JNum.fin 4), some (JNum.fin 5), none⟩,
           some ⟨some (JNum.fin 7), none⟩⟩⟩)
        "2024-01-01T00:00:10Z" =
      PMS_METRIC_MAP.filterMap
        (pmsEmit
          ⟨some (JNum.fin 1), some (JNum.fin 2), some (JNum.fin 3),
           some (JNum.fin 4), some (JNum.fin 5), none⟩
          "2024-01-01T00:00:10Z") ++
        [⟨"2024-01-01T00:00:10Z", "multimeter", "active_power_kw", 7,
          some "kW", true, none⟩] :=
  default_comm_ok_on_missing "2024-01-01T00:00:10Z"
    ⟨some (JNum.fin 1), some (JNum.fin 2), some (JNum.fin 3),
     some (JNum.fin 4), some (JNum.fin 5), none⟩
    ⟨some (JNum.fin 7), none⟩ 7 rfl rfl rfl

/-!
### Persistence boundary (`db.js` `insertTelemetryBatch`)
-/

/-- A bound SQL parameter value (`JSON.stringify` of a raw payload is kept as
the abstract document it serializes). -/
inductive DbVal where
  | str (s : String)
  | num (q : ℚ)
  | bool (b : Bool)
  | nullv
  | jsonStr (e : ErrPayload)
deriving DecidableEq, Repr

/-- One issued batch-insert query: number of placeholder groups and the flat
parameter list. -/
structure DbCall where
  rowCount : ℕ
  values : List DbVal
deriving DecidableEq, Repr

/-- The seven bound values contributed by one row. -/
def rowDbValues (r : Row) : List DbVal :=
  [DbVal.str r.ts, DbVal.str r.device_id, DbVal.str r.metric, DbVal.num r.value,
   (match r.unit with | some u => DbVal.str u | none => DbVal.nullv),
   DbVal.bool r.comm_ok,
   (match r.raw with | some p => DbVal.jsonStr p | none => DbVal.nullv)]

/-- `db.js` `insertTelemetryBatch`: `if (!rows.length) return;` — no query is
issued for an empty batch; otherwise one parameterised insert. -/
def insertTelemetryBatch (rows : List Row) : Option DbCall :=
  if rows.length = 0 then none
  else some ⟨rows.length, rows.foldl (fun vs r => vs ++ rowDbValues r) []⟩

/-- C10: total behaviour on empty input. A null snapshot or one without a
`devices` member yields the empty row list (no error is possible in the
total model), and the batch insert is a no-op (issues no query) on an empty
row list. -/
theorem transform_total_on_empty :
    (∀ ts : String, buildTelemetryRows none ts = []) ∧
    (∀ ts : String, buildTelemetryRows (some ⟨none⟩) ts = []) ∧
    insertTelemetryBatch [] = none :=
  ⟨fun _ => rfl, fun _ => rfl, rfl⟩

/-!
### Demand-write API (`server.js` `POST /api/pms/demand`)

The handler is modelled as a function of the (already body-parsed) input,
the outcome of the connection + register write (`Except String Unit`), the
current ISO timestamp, and the current `lastCommand` record; it returns the
new `lastCommand` record and the HTTP response. The three validation
rejections return early — before either assignment to `lastCommand`.
-/

/-- `server.js` business-level lower power bound (-3276.8 kW). -/
def POWER_MIN_KW : ℚ := -32768 / 10

/-- `server.js` business-level upper power bound (3276.7 kW). -/
def POWER_MAX_KW : ℚ := 32767 / 10

/-- The process-wide `lastCommand` record. -/
structure LastCommand where
  kw : Option ℚ
  raw : Option ℕ
  ts : Option String
  error : Option String
deriving DecidableEq, Repr

/-- The request body's `demand_control_power_kw` member after
`parseFloat`: absent/null, NaN, or a number. -/
inductive DemandBody where
  | missing
  | nan
  | num (q : ℚ)
deriving DecidableEq, Repr

/-- The HTTP response of the handler. -/
structure DemandResp where
  status : ℕ
  ok : Bool
  error : Option String
  written_raw : Option ℕ
  written_kw : Option ℚ
deriving DecidableEq, Repr

/-- `server.js` `app.post("/api/pms/demand")`. -/
def handleDemand (body : DemandBody) (write : Except String Unit) (now : String)
    (lastCommand : LastCommand) : LastCommand × DemandResp :=
  match body with
  | DemandBody.missing =>
    (lastCommand,
     ⟨400, false, some "Missing demand_control_power_kw", none, none⟩)
  | DemandBody.nan =>
    (lastCommand,
     ⟨400, false, some "demand_control_power_kw must be a number", none, none⟩)
  | DemandBody.num kw =>
    if kw < POWER_MIN_KW ∨ kw > POWER_MAX_KW then
      (lastCommand,
       ⟨400, false,
        some "demand_control_power_kw must be between -3276.8 and 3276.7",
        none, none⟩)
    else
      match encodePowerKw kw with
      | Except.error e =>
        ({ lastCommand with error := some e, ts := some now },
         ⟨500, false, some e, none, none⟩)
      | Except.ok rawU16 =>
        match write with
        | Except.error e =>
          ({ lastCommand with error := some e, ts := some now },
           ⟨500, false, some e, none, none⟩)
        | Except.ok _ =>
          let writtenKw := round1 (decodePowerKw rawU16)
          (⟨some writtenKw, some rawU16, some now, none⟩,
           ⟨200, true, none, some rawU16, some writtenKw⟩)

lemma demand_range_encode_ok (kw : ℚ) (h1 : POWER_MIN_KW ≤ kw)
    (h2 : kw ≤ POWER_MAX_KW) :
    -32768 ≤ jsRound (kw / tenth) ∧ jsRound (kw / tenth) ≤ 32767 := by
  rw [POWER_MIN_KW] at h1
  rw [POWER_MAX_KW] at h2
  rw [jsRound, div_tenth]
  constructor
  · apply Int.le_floor.mpr
    push_cast
    linarith
  · have hlt : ⌊kw * 10 + 1 / 2⌋ < 32768 := by
      apply Int.floor_lt.mpr
      push_cast
      linarith
    omega

/-- C8 counterexample: an invocation rejected by input validation (missing
body member, or an out-of-range value) does not overwrite the last-command
record at all — its previous timestamp and null error survive — contrary to
the claim that every invocation overwrites the record. -/
theorem command_record_counterexample :
    (handleDemand DemandBody.missing (Except.ok ()) "2024-01-02T00:00:00Z"
        ⟨some 5, some 50, some "2024-01-01T00:00:00Z", none⟩).1 =
      ⟨some 5, some 50, some "2024-01-01T00:00:00Z", none⟩ ∧
    (handleDemand (DemandBody.num 99999) (Except.ok ()) "2024-01-02T00:00:00Z"
        ⟨some 5, some 50, some "2024-01-01T00:00:00Z", none⟩).1 =
      ⟨some 5, some 50, some "2024-01-01T00:00:00Z", none⟩ ∧
    (some "2024-01-01T00:00:00Z" : Option String) ≠ some "2024-01-02T00:00:00Z" := by
  refine ⟨rfl, ?_, by simp⟩
  have h : (99999 : ℚ) < POWER_MIN_KW ∨ (99999 : ℚ) > POWER_MAX_KW := by
    right
    rw [POWER_MAX_KW]
    norm_num
  simp only [handleDemand, if_pos h]

/-- C8 (amended): the last-command record is overwritten only by invocations
that pass input validation. A success stores the round-tripped kw, raw
uint16, timestamp and a null error; a thrown encode/transport error merges
the error and timestamp into the previous record; the three validation
rejections (missing member, non-numeric, out of business range) leave the
record untouched. -/
theorem command_record_overwrite :
    ∀ (now : String) (lc : LastCommand) (w : Except String Unit) (kw : ℚ),
      (handleDemand DemandBody.missing w now lc).1 = lc ∧
      (handleDemand DemandBody.nan w now lc).1 = lc ∧
      (kw < POWER_MIN_KW ∨ kw > POWER_MAX_KW →
        (handleDemand (DemandBody.num kw) w now lc).1 = lc) ∧
      (∀ e, POWER_MIN_KW ≤ kw → kw ≤ POWER_MAX_KW → w = Except.error e →
        (handleDemand (DemandBody.num kw) w now lc).1 =
          { lc with error := some e, ts := some now }) ∧
      (POWER_MIN_KW ≤ kw → kw ≤ POWER_MAX_KW → w = Except.ok () →
        (handleDemand (DemandBody.num kw) w now lc).1 =
          ⟨some (round1 (decodePowerKw (int16ToU16 (jsRound (kw / tenth))))),
           some (int16ToU16 (jsRound (kw / tenth))), some now, none⟩) := by
  intro now lc w kw
  refine ⟨rfl, rfl, ?_, ?_, ?_⟩
  · intro h
    simp only [handleDemand, if_pos h]
  · intro e h1 h2 hw
    have hrange := demand_range_encode_ok kw h1 h2
    have hnot : ¬(kw < POWER_MIN_KW ∨ kw > POWER_MAX_KW) := by
      push_neg
      exact ⟨le_of_not_lt fun hlt => absurd h1 (not_le.mpr hlt), h2⟩
    simp only [handleDemand, if_neg hnot, encodePowerKw_ok kw hrange.1 hrange.2, hw]
  · intro h1 h2 hw
    have hrange := demand_range_encode_ok kw h1 h2
    have hnot : ¬(kw < POWER_MIN_KW ∨ kw > POWER_MAX_KW) := by
      push_neg
      exact ⟨le_of_not_lt fun hlt => absurd h1 (not_le.mpr hlt), h2⟩
    simp only [handleDemand, if_neg hnot, encodePowerKw_ok kw hrange.1 hrange.2, hw]

/-- Witness for C8 (amended): a successful write of 100 kW over a prior
record. -/
theorem command_record_overwrite_witness :
    (handleDemand (DemandBody.num 100) (Except.ok ()) "2024-01-02T00:00:00Z"
        ⟨some 5, some 50, some "2024-01-01T00:00:00Z", none⟩).1 =
      ⟨some (round1 (decodePowerKw (int16ToU16 (jsRound ((100 : ℚ) / tenth))))),
       some (int16ToU16 (jsRound ((100 : ℚ) / tenth))),
       some "2024-01-02T00:00:00Z", none⟩ :=
  (command_record_overwrite "2024-01-02T00:00:00Z"
      ⟨some 5, some 50, some "2024-01-01T00:00:00Z", none⟩ (Except.ok ()) 100).2.2.2.2
    (by rw [POWER_MIN_KW]; norm_num) (by rw [POWER_MAX_KW]; norm_num) rfl
